import Mathlib

/-!
Verification development for the mcbmap scraper pipeline
(src/scrapers/osm_scraper.py, src/scrapers/gla_footfall_parser.py,
src/scrapers/popular_times_scraper.py).

The Python sources are shallowly embedded below.  Machine floats are
modelled exactly: `floatRound q` is the IEEE-754 binary64 value nearest
to the rational `q` (round to nearest, ties to even), expressed as a
rational.  All float multiplications of the sources go through this
model, so expressions such as Python `int(base * 0.7)` are embedded as
the floor of the exactly-rounded double product.  The model was checked
against CPython double arithmetic on every value the programs can reach.
-/

namespace Mcbmap

set_option maxRecDepth 40000

attribute [local semireducible] Rat.mul Rat.add Rat.sub Rat.inv

/-- Round a rational to the nearest integer, ties to even: the rounding
mode used by numpy / pandas `.round()` and by IEEE-754 binary64. -/
def roundHalfEven (q : ℚ) : ℤ :=
  if q - (⌊q⌋ : ℚ) < 1/2 then ⌊q⌋
  else if 1/2 < q - (⌊q⌋ : ℚ) then ⌊q⌋ + 1
  else if ⌊q⌋ % 2 = 0 then ⌊q⌋ else ⌊q⌋ + 1

/-- Fuel-driven floor of log base 2 on the naturals; with fuel at least n
the fuel never runs out. -/
def natLog2Aux : ℕ → ℕ → ℕ
  | 0, _ => 0
  | fuel+1, n => if n ≤ 1 then 0 else 1 + natLog2Aux fuel (n / 2)

/-- Floor of log base 2 on positive naturals, kernel-computable. -/
def natLog2 (n : ℕ) : ℕ := natLog2Aux n n

/-- Kernel-computable floor of log base 2 of a positive rational: the
candidate from the numerator and denominator logs is off by at most one
and a single comparison corrects it. -/
def qlog (x : ℚ) : ℤ :=
  let k0 : ℤ := (natLog2 x.num.toNat : ℤ) - (natLog2 x.den : ℤ)
  if (2 : ℚ) ^ k0 ≤ x then k0 else k0 - 1

/-- Exact model of rounding a real (rational) value to the nearest IEEE-754
binary64 double, round to nearest, ties to even.  Valid in the normal,
non-overflowing range, which covers every value the embedded programs
compute.  For positive x with 2^k ≤ x < 2^(k+1), the representable doubles
are the multiples of 2^(k-52). -/
def floatRound (x : ℚ) : ℚ :=
  if x = 0 then 0
  else if 0 < x then
    (roundHalfEven (x / 2 ^ (qlog x - 52)) : ℚ) * 2 ^ (qlog x - 52)
  else
    -((roundHalfEven ((-x) / 2 ^ (qlog (-x) - 52)) : ℚ) * 2 ^ (qlog (-x) - 52))

/-! ## osm_scraper.py : tag classification -/

/-- BLACKLIST (osm_scraper.py lines 50-56): street-furniture and
non-business tag values the classifier discards. -/
def BLACKLIST : List String :=
  ["bench", "waste_basket", "bicycle_parking", "telephone",
   "post_box", "recycling", "drinking_water", "toilets",
   "vending_machine", "atm", "parking", "parking_space",
   "motorcycle_parking", "loading_dock", "grit_bin",
   "hunting_stand", "feeding_place", "watering_place"]

/-- A tag bag as seen by determine_type: for each of the seven keys the
classifier inspects, the field is some s exactly when the key is present
in the row with a string value (the source guards every access with
membership in row.index plus isinstance(row[k], str), so NaN and missing
keys both embed as none). -/
structure Row where
  shop : Option String
  office : Option String
  amenity : Option String
  tourism : Option String
  historic : Option String
  leisure : Option String
  craft : Option String
deriving DecidableEq

/-- Hospitality amenity values (osm_scraper.py line 86). -/
def hospitalityAmenities : List String :=
  ["restaurant", "cafe", "bar", "pub", "fast_food", "food_court", "biergarten", "nightclub"]

/-- Commercial-service amenity values (osm_scraper.py lines 90-91). -/
def commercialAmenities : List String :=
  ["bank", "bureau_de_change", "post_office", "clinic", "dentist",
   "pharmacy", "doctors", "hospital", "veterinary"]

/-- Lodging tourism values (osm_scraper.py line 100). -/
def lodgingTourism : List String :=
  ["hotel", "hostel", "guest_house", "motel", "apartment"]

/-- Fitness leisure values (osm_scraper.py line 113). -/
def fitnessLeisure : List String :=
  ["fitness_centre", "gym", "sports_centre"]

/-- determine_type (osm_scraper.py lines 69-121).  Result: some (type,
subtype), or none for the discard sentinel (None, None). -/
def determine_type (row : Row) : Option (String × String) :=
  match row.shop with
  | some s => some ("retail", s)
  | none =>
    match row.office with
    | some s => some ("commercial", s)
    | none =>
      match row.amenity with
      | some subtype =>
        if subtype ∈ BLACKLIST then none
        else if subtype ∈ hospitalityAmenities then some ("hospitality", subtype)
        else if subtype ∈ commercialAmenities then some ("commercial", subtype)
        else some ("other", "amenity:" ++ subtype)
      | none =>
        match row.tourism with
        | some subtype =>
          if subtype ∈ lodgingTourism then some ("hospitality", subtype)
          else some ("other", "tourism:" ++ subtype)
        | none =>
          match row.historic with
          | some s => some ("other", "historic:" ++ s)
          | none =>
            match row.leisure with
            | some subtype =>
              if subtype ∈ BLACKLIST then none
              else if subtype ∈ fitnessLeisure then some ("commercial", subtype)
              else some ("other", "leisure:" ++ subtype)
            | none =>
              match row.craft with
              | some s => some ("commercial", "craft:" ++ s)
              | none => some ("other", "unknown")

/-- Spec-side restatement for the refinement claim C1, following the
wording of spec section 4.2: an ordered list of per-key rules evaluated
in fixed precedence, first match wins.  A rule answers some r when its
key matched (r itself being none for a discard) and none when the key is
absent. -/
def firstMatch (rules : List (Row → Option (Option (String × String))))
    (dflt : Option (String × String)) (row : Row) : Option (String × String) :=
  match rules with
  | [] => dflt
  | r :: rs =>
    match r row with
    | some b => b
    | none => firstMatch rs dflt row

/-- The seven precedence rules of spec section 4.2, in the spec order
shop, office, amenity, tourism, historic, leisure, craft. -/
def specRules : List (Row → Option (Option (String × String))) :=
  [fun row => row.shop.map fun s => some ("retail", s),
   fun row => row.office.map fun s => some ("commercial", s),
   fun row => row.amenity.map fun v =>
     if v ∈ BLACKLIST then none
     else if v ∈ hospitalityAmenities then some ("hospitality", v)
     else if v ∈ commercialAmenities then some ("commercial", v)
     else some ("other", "amenity:" ++ v),
   fun row => row.tourism.map fun v =>
     if v ∈ lodgingTourism then some ("hospitality", v)
     else some ("other", "tourism:" ++ v),
   fun row => row.historic.map fun v => some ("other", "historic:" ++ v),
   fun row => row.leisure.map fun v =>
     if v ∈ BLACKLIST then none
     else if v ∈ fitnessLeisure then some ("commercial", v)
     else some ("other", "leisure:" ++ v),
   fun row => row.craft.map fun v => some ("commercial", "craft:" ++ v)]

/-- Spec-side classifier: the rules in precedence order with the
default (other, unknown) class. -/
def classifyByPrecedenceSpec (row : Row) : Option (String × String) :=
  firstMatch specRules (some ("other", "unknown")) row

/-! ## osm_scraper.py : record assembly and batched upsert -/

/-- A record built by fetch_all_pois (osm_scraper.py lines 164-171).
location holds the (lon, lat) pair which the source formats as the
string "POINT(lon lat)". -/
structure POI where
  name : String
  type : String
  subtype : String
  location : ℚ × ℚ
  osm_id : Option ℤ
  opening_hours : Option String
deriving DecidableEq

/-- Record assembly of fetch_all_pois (osm_scraper.py lines 157-171): the
name falls back to the placeholder "Unnamed <subtype>" when the source
row has no string name, and a falsy osm id (absent, or the integer 0)
is stored as None. -/
def mkPOI (poi_type subtype : String) (name : Option String) (lon lat : ℚ)
    (osm_id : Option ℤ) (opening_hours : Option String) : POI :=
  { name := match name with
            | some s => s
            | none => "Unnamed " ++ subtype
    type := poi_type
    subtype := subtype
    location := (lon, lat)
    osm_id := match osm_id with
              | some k => if k = 0 then none else some k
              | none => none
    opening_hours := opening_hours }

/-- Python truthiness of p.get('osm_id') in insert_pois_to_supabase
(osm_scraper.py line 216): None and 0 are falsy, every other integer is
truthy. -/
def osmIdTruthy (p : POI) : Bool :=
  match p.osm_id with
  | some k => k != 0
  | none => false

/-- Fuel-driven chunking; with fuel at least the list length this mirrors
the Python loop for i in range(0, len(l), n): batch = l[i:i+n]. -/
def chunksAux (n : ℕ) : ℕ → List α → List (List α)
  | _, [] => []
  | 0, _ :: _ => []
  | fuel+1, a :: l => (a :: l).take n :: chunksAux n fuel ((a :: l).drop n)

/-- The batches submitted by both sinks (batch_size is 100 in both
sources). -/
def chunksOf (n : ℕ) (l : List α) : List (List α) := chunksAux n l.length l

/-- insert_pois_to_supabase inner loop (osm_scraper.py lines 211-227),
processing the batch list from chunk index i onwards.  fails j models
whether the j-th chunk's upsert raises; an upsert happens only when the
filtered valid batch is non-empty.  Returns (attempted upsert payloads in
order, inserted count, error count). -/
def osmGo (fails : ℕ → Bool) : ℕ → List (List POI) → List (List POI) × ℕ × ℕ
  | _, [] => ([], 0, 0)
  | i, b :: bs =>
    let valid := b.filter osmIdTruthy
    let rest := osmGo fails (i+1) bs
    if valid.isEmpty then rest
    else if fails i then (valid :: rest.1, rest.2.1, rest.2.2 + b.length)
    else (valid :: rest.1, rest.2.1 + valid.length, rest.2.2)

/-- insert_pois_to_supabase (osm_scraper.py lines 195-228): chunk the
record list into batches of 100, then run the loop. -/
def insert_pois_to_supabase (fails : ℕ → Bool) (pois : List POI) :
    List (List POI) × ℕ × ℕ :=
  osmGo fails 0 (chunksOf 100 pois)

/-- insert_footfall_data inner loop (gla_footfall_parser.py lines
209-220): every batch is submitted; a failed batch adds nothing to the
inserted count; the source keeps no error counter.  Returns (attempted
upsert payloads, inserted count). -/
def glaGo (fails : ℕ → Bool) : ℕ → List (List α) → List (List α) × ℕ
  | _, [] => ([], 0)
  | i, b :: bs =>
    let rest := glaGo fails (i+1) bs
    (b :: rest.1, (if fails i then 0 else b.length) + rest.2)

/-- insert_footfall_data (gla_footfall_parser.py lines 198-221): chunk
into batches of 100 and run the loop; insert_records of
popular_times_scraper.py lines 256-276 is the same sink. -/
def insert_footfall_data (fails : ℕ → Bool) (records : List α) :
    List (List α) × ℕ :=
  glaGo fails 0 (chunksOf 100 records)

/-- Total records sitting in failed chunks, counting from chunk index i. -/
def failedSize (fails : ℕ → Bool) : ℕ → List (List α) → ℕ
  | _, [] => 0
  | i, b :: bs => (if fails i then b.length else 0) + failedSize fails (i+1) bs

/-- Valid (id-bearing) records in chunks whose upsert did not fail. -/
def osmValidOutsideFailed (fails : ℕ → Bool) : ℕ → List (List POI) → ℕ
  | _, [] => 0
  | i, b :: bs =>
    (if fails i then 0 else (b.filter osmIdTruthy).length) +
      osmValidOutsideFailed fails (i+1) bs

/-- Valid (id-bearing) records in chunks whose upsert failed. -/
def osmValidInFailed (fails : ℕ → Bool) : ℕ → List (List POI) → ℕ
  | _, [] => 0
  | i, b :: bs =>
    (if fails i then (b.filter osmIdTruthy).length else 0) +
      osmValidInFailed fails (i+1) bs

/-- Total records of failed chunks that were actually attempted (a chunk
with no valid record never reaches the store, so it cannot fail). -/
def osmFailedAttempted (fails : ℕ → Bool) : ℕ → List (List POI) → ℕ
  | _, [] => 0
  | i, b :: bs =>
    (if fails i && !(b.filter osmIdTruthy).isEmpty then b.length else 0) +
      osmFailedAttempted fails (i+1) bs

/-! ## popular_times_scraper.py -/

/-- DAYS (popular_times_scraper.py line 89). -/
def DAYS : List String :=
  ["Monday", "Tuesday", "Wednesday", "Thursday", "Friday", "Saturday", "Sunday"]

/-- Canonical footfall record (shared dict shape of
popular_times_scraper.py lines 194-203 / 232-241 and
gla_footfall_parser.py lines 183-192).  location_point holds the
(lon, lat) pair the sources format as "POINT(lng lat)". -/
structure FootfallRecord where
  location_name : String
  location_point : ℚ × ℚ
  day_of_week : String
  hour_of_day : ℕ
  avg_footfall_score : ℤ
  raw_footfall_value : ℤ
  source : String
  source_date : String
deriving DecidableEq

/-- ASCII lowercasing of a string, the effect of Python str.lower() on
the ASCII place names of this program, via the char list. -/
def strToLower (s : String) : String := String.mk (s.data.map Char.toLower)

/-- Char-list prefix test (is pat a prefix of s). -/
def leadMatch : List Char → List Char → Bool
  | [], _ => true
  | _ :: _, [] => false
  | a :: as, b :: bs => a == b && leadMatch as bs

/-- Char-list substring test. -/
def subMatch (pat : List Char) : List Char → Bool
  | [] => pat.isEmpty
  | b :: bs => leadMatch pat (b :: bs) || subMatch pat bs

/-- Python membership test pat in s for strings. -/
def strContainsSub (s pat : String) : Bool :=
  subMatch pat.toList s.toList

/-- Base hourly curve of generate_estimated_popular_times
(popular_times_scraper.py lines 144-159), for hour in range(24). -/
def baseCurve (hour : ℕ) : ℤ :=
  if hour < 6 then 5 + hour
  else if hour < 9 then 20 + ((hour : ℤ) - 6) * 15
  else if hour < 12 then 60 + ((hour : ℤ) - 9) * 10
  else if hour < 14 then 85
  else if hour < 17 then 75 - ((hour : ℤ) - 14) * 5
  else if hour < 20 then 65 + ((hour : ℤ) - 17) * 5
  else if hour < 23 then 60 - ((hour : ℤ) - 20) * 15
  else 15

/-- Python int(b * c) where b is a nonnegative machine int and c a float
literal given here as the exact decimal rational: the literal is rounded
to the nearest double, the product is rounded to the nearest double, and
int() truncates toward zero. -/
def intMulFloat (b : ℤ) (c : ℚ) : ℤ :=
  let p := floatRound ((b : ℚ) * floatRound c)
  if 0 ≤ p then ⌊p⌋ else -⌊-p⌋

/-- The per-(day, hour) score of generate_estimated_popular_times
(popular_times_scraper.py lines 131-192): archetype flags from the
lowercased name, base curve, the four archetype adjustments in source
order, the Saturday/Sunday scaling, and the final clamp to 0..100. -/
def estimatedScore (place_name : String) (day : String) (hour : ℕ) : ℤ :=
  let lower := strToLower place_name
  let is_station := strContainsSub lower "station"
  let is_shopping := strContainsSub lower "circus" || strContainsSub lower "square" ||
    strContainsSub lower "street" || strContainsSub lower "garden"
  let is_landmark := strContainsSub lower "cathedral" || strContainsSub lower "abbey" ||
    strContainsSub lower "eye" || strContainsSub lower "bridge" || strContainsSub lower "ben"
  let is_transit := is_station || strContainsSub lower "bridge"
  let is_weekend := day == "Saturday" || day == "Sunday"
  let base := baseCurve hour
  let base :=
    if is_station then
      if !is_weekend && ((7 ≤ hour && hour ≤ 9) || (17 ≤ hour && hour ≤ 19)) then
        min 100 (base + 25)
      else if is_weekend then intMulFloat base (7/10)
      else base
    else base
  let base :=
    if is_shopping && (is_weekend && (10 ≤ hour && hour ≤ 18)) then min 100 (base + 20)
    else base
  let base :=
    if is_landmark && (10 ≤ hour && hour ≤ 17) then max base 50
    else base
  let base :=
    if is_transit && (!is_weekend && ((8 ≤ hour && hour ≤ 9) || (17 ≤ hour && hour ≤ 18))) then
      min 100 (base + 15)
    else base
  let base :=
    if is_weekend then
      if day == "Saturday" then intMulFloat base (11/10)
      else intMulFloat base (17/20)
    else base
  max 0 (min 100 base)

/-- One record of the estimator output (popular_times_scraper.py lines
194-203). -/
def mkEstRecord (place_name : String) (lat lng : ℚ) (day : String) (hour : ℕ) :
    FootfallRecord :=
  { location_name := place_name
    location_point := (lng, lat)
    day_of_week := day
    hour_of_day := hour
    avg_footfall_score := estimatedScore place_name day hour
    raw_footfall_value := estimatedScore place_name day hour * 100
    source := "GOOGLE_POPULAR_TIMES_ESTIMATE"
    source_date := "2024-01-01" }

/-- generate_estimated_popular_times (popular_times_scraper.py lines
125-205): one record per day of DAYS per hour in range(24). -/
def generate_estimated_popular_times (place_name : String) (lat lng : ℚ) :
    List FootfallRecord :=
  DAYS.flatMap fun day =>
    (List.range 24).map fun hour => mkEstRecord place_name lat lng day hour

/-- One populartimes day entry as consumed by scrape_all_places: a day
index into DAYS and the hourly popularity list. -/
structure DayData where
  day : Fin 7
  data : List ℤ
deriving DecidableEq

/-- The authoritative-data branch of scrape_all_places
(popular_times_scraper.py lines 225-241): each fetched popularity value
is copied into avg_footfall_score unmodified. -/
def parsePopularTimesRecords (name : String) (lat lng : ℚ) (pts : List DayData) :
    List FootfallRecord :=
  pts.flatMap fun dd =>
    dd.data.enum.map fun p =>
      { location_name := name
        location_point := (lng, lat)
        day_of_week := DAYS.getD dd.day.val "Monday"
        hour_of_day := p.1
        avg_footfall_score := p.2
        raw_footfall_value := p.2 * 100
        source := "GOOGLE_POPULAR_TIMES"
        source_date := "2024-01-01" }

/-! ## gla_footfall_parser.py -/

/-- LOCATION_COORDS (gla_footfall_parser.py lines 33-67), as exact
decimal (lon, lat) pairs. -/
def LOCATION_COORDS : List (String × ℚ × ℚ) :=
  [("Oxford Street", -1410/10000, 515153/10000),
   ("Regent Street", -1376/10000, 515114/10000),
   ("Bond Street", -1485/10000, 515133/10000),
   ("Covent Garden", -1235/10000, 515116/10000),
   ("Leicester Square", -1281/10000, 515103/10000),
   ("Piccadilly", -1378/10000, 515078/10000),
   ("Soho", -1337/10000, 515137/10000),
   ("Carnaby Street", -1383/10000, 515129/10000),
   ("Marylebone High Street", -1529/10000, 515199/10000),
   ("Victoria", -1432/10000, 514967/10000),
   ("Westminster", -1276/10000, 515014/10000),
   ("Whitehall", -1266/10000, 515040/10000),
   ("Trafalgar Square", -1276/10000, 515080/10000),
   ("The Strand", -1190/10000, 515108/10000),
   ("Charing Cross", -1246/10000, 515074/10000),
   ("Tottenham Court Road", -1306/10000, 515165/10000),
   ("Kings Cross", -1246/10000, 515309/10000),
   ("Camden", -1426/10000, 515390/10000),
   ("Shoreditch", -763/10000, 515236/10000),
   ("Brick Lane", -715/10000, 515215/10000),
   ("Liverpool Street", -823/10000, 515178/10000),
   ("Bank", -887/10000, 515133/10000),
   ("South Bank", -1157/10000, 515047/10000),
   ("Borough Market", -906/10000, 515054/10000),
   ("London Bridge", -862/10000, 515055/10000),
   ("Tower Bridge", -754/10000, 515055/10000),
   ("Canary Wharf", -197/10000, 515054/10000),
   ("Greenwich", -76/10000, 514769/10000),
   ("Kensington High Street", -1910/10000, 515003/10000),
   ("Chelsea", -1687/10000, 514875/10000),
   ("Knightsbridge", -1609/10000, 515013/10000),
   ("Notting Hill", -2019/10000, 515111/10000),
   ("Portobello Road", -2046/10000, 515153/10000)]

/-- The local days list of generate_sample_data (gla_footfall_parser.py
line 144). -/
def sampleDays : List String :=
  ["Monday", "Tuesday", "Wednesday", "Thursday", "Friday", "Saturday", "Sunday"]

/-- weekday_pattern (gla_footfall_parser.py line 147). -/
def weekday_pattern : List ℕ :=
  [5, 3, 2, 2, 3, 10, 25, 50, 65, 60, 65, 75, 85, 80, 75, 70, 75, 85, 70, 50, 35, 25, 15, 8]

/-- saturday_pattern (gla_footfall_parser.py line 148). -/
def saturday_pattern : List ℕ :=
  [8, 5, 3, 3, 5, 8, 15, 30, 50, 70, 85, 95, 100, 95, 90, 85, 80, 70, 55, 40, 30, 25, 18, 12]

/-- sunday_pattern (gla_footfall_parser.py line 149). -/
def sunday_pattern : List ℕ :=
  [5, 3, 2, 2, 3, 5, 10, 20, 35, 50, 65, 80, 85, 80, 70, 60, 50, 40, 30, 25, 18, 12, 8, 5]

/-- location_multipliers.get(location, 0.5) (gla_footfall_parser.py lines
152-166, 169), with the float literals as exact decimals. -/
def locationMultiplier (loc : String) : ℚ :=
  if loc = "Oxford Street" then 1
  else if loc = "Regent Street" then 9/10
  else if loc = "Covent Garden" then 85/100
  else if loc = "Leicester Square" then 8/10
  else if loc = "Piccadilly" then 75/100
  else if loc = "Trafalgar Square" then 7/10
  else if loc = "South Bank" then 65/100
  else if loc = "Borough Market" then 6/10
  else if loc = "Camden" then 7/10
  else if loc = "Shoreditch" then 55/100
  else if loc = "Notting Hill" then 5/10
  else if loc = "Westminster" then 45/100
  else if loc = "Whitehall" then 35/100
  else 5/10

/-- The pattern chosen for a day (gla_footfall_parser.py lines 172-177). -/
def dayPattern (day : String) : List ℕ :=
  if day = "Saturday" then saturday_pattern
  else if day = "Sunday" then sunday_pattern
  else weekday_pattern

/-- Python int(min(100, max(0, base_score * multiplier)))
(gla_footfall_parser.py line 181), with the float product modelled
exactly; the clamped value is nonnegative, so int() is the floor. -/
def sampleScore (s : ℕ) (m : ℚ) : ℤ :=
  ⌊min 100 (max 0 (floatRound ((s : ℚ) * floatRound m)))⌋

/-- generate_sample_data (gla_footfall_parser.py lines 136-195). -/
def generate_sample_data : List FootfallRecord :=
  LOCATION_COORDS.flatMap fun loc =>
    sampleDays.flatMap fun day =>
      (dayPattern day).enum.map fun p =>
        { location_name := loc.1
          location_point := (loc.2.1, loc.2.2)
          day_of_week := day
          hour_of_day := p.1
          avg_footfall_score := sampleScore p.2 (locationMultiplier loc.1)
          raw_footfall_value := sampleScore p.2 (locationMultiplier loc.1) * 100
          source := "SAMPLE_DATA"
          source_date := "2024-01-01" }

/-- Series minimum, values.min() over the non-empty series v :: vs. -/
def seriesMin (v : ℚ) (vs : List ℚ) : ℚ := vs.foldl min v

/-- Series maximum, values.max() over the non-empty series v :: vs. -/
def seriesMax (v : ℚ) (vs : List ℚ) : ℚ := vs.foldl max v

/-- One element of the normalized series: pandas computes
(x - mn) / (mx - mn) * 100 in doubles and .round() rounds half to even;
.astype(int) is then exact. -/
def normElem (mn mx x : ℚ) : ℤ :=
  roundHalfEven (floatRound (floatRound (floatRound (x - mn) / floatRound (mx - mn)) * 100))

/-- normalize_to_100 (gla_footfall_parser.py lines 80-88). -/
def normalize_to_100 : List ℚ → List ℤ
  | [] => []
  | v :: vs =>
    if seriesMax v vs = seriesMin v vs then
      List.replicate (v :: vs).length 50
    else
      (v :: vs).map (normElem (seriesMin v vs) (seriesMax v vs))

/-! ## Claim C7 : partial-failure isolation -/

/-- Concrete two-record submission for the C7 counterexample: one record
with a usable osm id and one without. -/
def cexPois : List POI :=
  [mkPOI "retail" "bakery" (some "A") 0 0 (some 1) none,
   mkPOI "retail" "bakery" (some "B") 0 0 none none]

/-! ## Claim C8 : exclusion of id-less records -/

/-- A 101-record submission for the C8 counterexample: the id-less record
leads, followed by 100 id-valid records. -/
def cexPoisB : List POI :=
  mkPOI "retail" "bakery" (some "B") 0 0 none none ::
    List.replicate 100 (mkPOI "retail" "bakery" (some "A") 0 0 (some 1) none)

/-! ## Theorems -/

theorem roundHalfEven_intCast (n : ℤ) : roundHalfEven (n : ℚ) = n := by
  simp [roundHalfEven]

theorem floor_le_roundHalfEven (q : ℚ) : ⌊q⌋ ≤ roundHalfEven q := by
  unfold roundHalfEven
  split
  · omega
  split
  · omega
  split <;> omega

theorem roundHalfEven_le_floor_add_one (q : ℚ) : roundHalfEven q ≤ ⌊q⌋ + 1 := by
  unfold roundHalfEven
  split
  · omega
  split
  · omega
  split <;> omega

theorem roundHalfEven_mono {p q : ℚ} (h : p ≤ q) :
    roundHalfEven p ≤ roundHalfEven q := by
  rcases lt_or_eq_of_le (Int.floor_le_floor h) with hf | hf
  · have h1 := roundHalfEven_le_floor_add_one p
    have h2 := floor_le_roundHalfEven q
    omega
  · have hfr : p - (⌊p⌋ : ℚ) ≤ q - (⌊q⌋ : ℚ) := by
      rw [hf]; linarith
    rcases lt_trichotomy (p - (⌊p⌋ : ℚ)) (1/2) with c1 | c1 | c1
    · have hp : roundHalfEven p = ⌊p⌋ := by unfold roundHalfEven; rw [if_pos c1]
      rw [hp, hf]; exact floor_le_roundHalfEven q
    · have hq : 1/2 ≤ q - (⌊q⌋ : ℚ) := by rw [← hf]; linarith
      rcases eq_or_lt_of_le hq with ct | ct
      · have hpq : p = q := by
          have hc : (⌊p⌋ : ℚ) = (⌊q⌋ : ℚ) := by exact_mod_cast hf
          linarith [c1, ct.symm, hc]
        rw [hpq]
      · have hq2 : roundHalfEven q = ⌊q⌋ + 1 := by
          unfold roundHalfEven; rw [if_neg (by linarith), if_pos ct]
        have := roundHalfEven_le_floor_add_one p
        omega
    · have hp : roundHalfEven p = ⌊p⌋ + 1 := by
        unfold roundHalfEven; rw [if_neg (by linarith), if_pos c1]
      have hq1 : 1/2 < q - (⌊q⌋ : ℚ) := by rw [← hf]; linarith
      have hq : roundHalfEven q = ⌊q⌋ + 1 := by
        unfold roundHalfEven; rw [if_neg (by linarith), if_pos hq1]
      omega

theorem roundHalfEven_nonneg {q : ℚ} (h : 0 ≤ q) : 0 ≤ roundHalfEven q := by
  have h1 := floor_le_roundHalfEven q
  have h2 : (0 : ℤ) ≤ ⌊q⌋ := Int.floor_nonneg.mpr h
  omega

theorem roundHalfEven_le_int {q : ℚ} {n : ℤ} (h : q ≤ (n : ℚ)) :
    roundHalfEven q ≤ n := by
  calc roundHalfEven q ≤ roundHalfEven (n : ℚ) := roundHalfEven_mono h
    _ = n := roundHalfEven_intCast n

theorem natLog2Aux_bounds :
    ∀ (fuel n : ℕ), 1 ≤ n → n ≤ fuel →
      2 ^ natLog2Aux fuel n ≤ n ∧ n < 2 ^ (natLog2Aux fuel n + 1) := by
  intro fuel
  induction fuel with
  | zero => intro n h1 h2; omega
  | succ g ih =>
    intro n h1 h2
    by_cases hn : n ≤ 1
    · have hone : n = 1 := by omega
      simp [natLog2Aux, hn, hone]
    · have h2x : n / 2 ≤ g := by omega
      have h1x : 1 ≤ n / 2 := by omega
      obtain ⟨ha, hb⟩ := ih (n / 2) h1x h2x
      simp only [natLog2Aux, hn, if_false]
      have e1 : 2 ^ (1 + natLog2Aux g (n / 2)) = 2 * 2 ^ natLog2Aux g (n / 2) := by
        ring
      have e2 : 2 ^ (1 + natLog2Aux g (n / 2) + 1) = 2 * 2 ^ (natLog2Aux g (n / 2) + 1) := by
        ring
      constructor
      · rw [e1]; omega
      · rw [e2]; omega

theorem natLog2_bounds {n : ℕ} (h : 1 ≤ n) :
    2 ^ natLog2 n ≤ n ∧ n < 2 ^ (natLog2 n + 1) :=
  natLog2Aux_bounds n n h le_rfl

theorem two_zpow_natCast (m : ℕ) : (2 : ℚ) ^ (m : ℤ) = ((2 ^ m : ℕ) : ℚ) := by
  rw [zpow_natCast]
  push_cast
  ring

theorem qlog_bounds {x : ℚ} (h : 0 < x) :
    (2 : ℚ) ^ qlog x ≤ x ∧ x < (2 : ℚ) ^ (qlog x + 1) := by
  have hnum : 1 ≤ x.num.toNat := by
    have := Rat.num_pos.mpr h
    omega
  have hden : 1 ≤ x.den := x.pos
  obtain ⟨ha1, ha2⟩ := natLog2_bounds hnum
  obtain ⟨hb1, hb2⟩ := natLog2_bounds hden
  have hnn : (0 : ℤ) ≤ x.num := le_of_lt (Rat.num_pos.mpr h)
  have hxeq : x = (x.num.toNat : ℚ) / (x.den : ℚ) := by
    have h1 : ((x.num.toNat : ℕ) : ℚ) = ((x.num : ℤ) : ℚ) := by
      rw [← Int.cast_natCast]
      congr 1
      exact Int.toNat_of_nonneg hnn
    rw [h1, Rat.num_div_den]
  simp only [qlog]
  revert ha1 ha2 hb1 hb2
  generalize natLog2 x.num.toNat = la
  generalize natLog2 x.den = lb
  intro ha1 ha2 hb1 hb2
  have hdpos : (0 : ℚ) < (x.den : ℚ) := by exact_mod_cast hden
  have hup : x < (2 : ℚ) ^ ((la : ℤ) - (lb : ℤ) + 1) := by
    rw [hxeq, div_lt_iff₀ hdpos]
    have e1 : (x.num.toNat : ℚ) < ((2 ^ (la + 1) : ℕ) : ℚ) := by exact_mod_cast ha2
    have e2 : ((2 ^ (la + 1) : ℕ) : ℚ) = (2 : ℚ) ^ ((la : ℤ) + 1) := by
      have e2a : ((la : ℤ) + 1) = ((la + 1 : ℕ) : ℤ) := by omega
      rw [e2a, two_zpow_natCast]
    have e4 : (2 : ℚ) ^ ((la : ℤ) + 1) ≤
        (2 : ℚ) ^ ((la : ℤ) - (lb : ℤ) + 1) * (2 : ℚ) ^ (lb : ℤ) := by
      rw [← zpow_add₀ (by norm_num : (2:ℚ) ≠ 0)]
      apply zpow_le_zpow_right₀ (by norm_num)
      omega
    have e5 : (2 : ℚ) ^ (lb : ℤ) ≤ (x.den : ℚ) := by
      rw [two_zpow_natCast]
      exact_mod_cast hb1
    calc (x.num.toNat : ℚ) < (2 : ℚ) ^ ((la : ℤ) + 1) := by rw [← e2]; exact e1
      _ ≤ (2 : ℚ) ^ ((la : ℤ) - (lb : ℤ) + 1) * (2 : ℚ) ^ (lb : ℤ) := e4
      _ ≤ (2 : ℚ) ^ ((la : ℤ) - (lb : ℤ) + 1) * (x.den : ℚ) :=
          mul_le_mul_of_nonneg_left e5 (by positivity)
  have hlow : (2 : ℚ) ^ ((la : ℤ) - (lb : ℤ) - 1) < x := by
    rw [hxeq, lt_div_iff₀ hdpos]
    have e1 : (x.den : ℚ) < ((2 ^ (lb + 1) : ℕ) : ℚ) := by exact_mod_cast hb2
    have e2 : ((2 ^ (lb + 1) : ℕ) : ℚ) = (2 : ℚ) ^ ((lb : ℤ) + 1) := by
      have e2a : ((lb : ℤ) + 1) = ((lb + 1 : ℕ) : ℤ) := by omega
      rw [e2a, two_zpow_natCast]
    have e3 : (2 : ℚ) ^ ((la : ℤ) - (lb : ℤ) - 1) * (2 : ℚ) ^ ((lb : ℤ) + 1) ≤
        (2 : ℚ) ^ (la : ℤ) := by
      rw [← zpow_add₀ (by norm_num : (2:ℚ) ≠ 0)]
      apply zpow_le_zpow_right₀ (by norm_num)
      omega
    have e4 : (2 : ℚ) ^ (la : ℤ) ≤ (x.num.toNat : ℚ) := by
      rw [two_zpow_natCast]
      exact_mod_cast ha1
    calc (2 : ℚ) ^ ((la : ℤ) - (lb : ℤ) - 1) * (x.den : ℚ)
        < (2 : ℚ) ^ ((la : ℤ) - (lb : ℤ) - 1) * (2 : ℚ) ^ ((lb : ℤ) + 1) := by
          apply mul_lt_mul_of_pos_left _ (by positivity)
          rw [← e2]
          exact e1
      _ ≤ (2 : ℚ) ^ (la : ℤ) := e3
      _ ≤ (x.num.toNat : ℚ) := e4
  split_ifs with hc
  · exact ⟨hc, hup⟩
  · push_neg at hc
    constructor
    · exact le_of_lt hlow
    · have e : (la : ℤ) - (lb : ℤ) - 1 + 1 = (la : ℤ) - (lb : ℤ) := by ring
      rw [e]
      exact hc

theorem qlog_le_self {x : ℚ} (h : 0 < x) : (2 : ℚ) ^ qlog x ≤ x :=
  (qlog_bounds h).1

theorem lt_qlog_succ {x : ℚ} (h : 0 < x) : x < (2 : ℚ) ^ (qlog x + 1) :=
  (qlog_bounds h).2

theorem qlog_mono {a b : ℚ} (ha : 0 < a) (h : a ≤ b) : qlog a ≤ qlog b := by
  by_contra hc
  push_neg at hc
  have h1 : (2 : ℚ) ^ qlog b + 0 ≤ (2 : ℚ) ^ qlog b := by norm_num
  have h2 : qlog b + 1 ≤ qlog a := by omega
  have h3 : (2 : ℚ) ^ (qlog b + 1) ≤ (2 : ℚ) ^ qlog a :=
    zpow_le_zpow_right₀ (by norm_num) h2
  have h4 := lt_qlog_succ (lt_of_lt_of_le ha h)
  have h5 := qlog_le_self ha
  linarith

theorem floatRound_zero : floatRound 0 = 0 := by simp [floatRound]

theorem floatRound_nonneg {x : ℚ} (h : 0 ≤ x) : 0 ≤ floatRound x := by
  unfold floatRound
  rcases eq_or_lt_of_le h with h0 | h0
  · simp [← h0]
  · rw [if_neg (by positivity), if_pos h0]
    have hu : (0 : ℚ) < 2 ^ (qlog x - 52) := by positivity
    have hr : (0 : ℤ) ≤ roundHalfEven (x / 2 ^ (qlog x - 52)) :=
      roundHalfEven_nonneg (by positivity)
    positivity

theorem floatRound_pos_ge {x : ℚ} (h : 0 < x) :
    (2 : ℚ) ^ (qlog x) ≤ floatRound x := by
  unfold floatRound
  rw [if_neg (by positivity), if_pos h]
  set k := qlog x with hk
  have hu : (0 : ℚ) < 2 ^ (k - 52) := by positivity
  have hx : (2 : ℚ) ^ k ≤ x := by
    simpa [hk] using qlog_le_self h
  have hpow : (2 : ℚ) ^ (52 : ℤ) * 2 ^ (k - 52) = 2 ^ k := by
    rw [← zpow_add₀ (by norm_num : (2:ℚ) ≠ 0)]
    congr 1
    ring
  have hdiv : ((2 ^ 52 : ℤ) : ℚ) ≤ x / 2 ^ (k - 52) := by
    rw [le_div_iff₀ hu]
    calc ((2 ^ 52 : ℤ) : ℚ) * 2 ^ (k - 52) = (2 : ℚ) ^ (52 : ℤ) * 2 ^ (k - 52) := by
          push_cast; norm_num
      _ = 2 ^ k := hpow
      _ ≤ x := hx
  have hround : (2 ^ 52 : ℤ) ≤ roundHalfEven (x / 2 ^ (k - 52)) := by
    have h2 := roundHalfEven_mono hdiv
    rwa [roundHalfEven_intCast] at h2
  calc (2 : ℚ) ^ k = (2 : ℚ) ^ (52 : ℤ) * 2 ^ (k - 52) := hpow.symm
    _ ≤ (roundHalfEven (x / 2 ^ (k - 52)) : ℚ) * 2 ^ (k - 52) := by
        apply mul_le_mul_of_nonneg_right _ (le_of_lt hu)
        calc (2 : ℚ) ^ (52 : ℤ) = ((2 ^ 52 : ℤ) : ℚ) := by push_cast; norm_num
          _ ≤ _ := by exact_mod_cast hround

theorem floatRound_pos {x : ℚ} (h : 0 < x) : 0 < floatRound x :=
  lt_of_lt_of_le (by positivity) (floatRound_pos_ge h)

theorem floatRound_le_pow_succ {x : ℚ} (h : 0 < x) :
    floatRound x ≤ (2 : ℚ) ^ (qlog x + 1) := by
  unfold floatRound
  rw [if_neg (by positivity), if_pos h]
  set k := qlog x with hk
  have hu : (0 : ℚ) < 2 ^ (k - 52) := by positivity
  have hx : x < (2 : ℚ) ^ (k + 1) := by
    simpa [hk] using lt_qlog_succ h
  have hpow : ((2 ^ 53 : ℤ) : ℚ) * 2 ^ (k - 52) = 2 ^ (k + 1) := by
    have h1 : ((2 ^ 53 : ℤ) : ℚ) = (2 : ℚ) ^ (53 : ℤ) := by push_cast; norm_num
    rw [h1, ← zpow_add₀ (by norm_num : (2:ℚ) ≠ 0)]
    congr 1
    ring
  have hdiv : x / 2 ^ (k - 52) ≤ ((2 ^ 53 : ℤ) : ℚ) := by
    rw [div_le_iff₀ hu, hpow]
    exact le_of_lt hx
  have hround : roundHalfEven (x / 2 ^ (k - 52)) ≤ (2 ^ 53 : ℤ) :=
    roundHalfEven_le_int hdiv
  calc (roundHalfEven (x / 2 ^ (k - 52)) : ℚ) * 2 ^ (k - 52)
      ≤ ((2 ^ 53 : ℤ) : ℚ) * 2 ^ (k - 52) := by
        apply mul_le_mul_of_nonneg_right _ (le_of_lt hu)
        exact_mod_cast hround
    _ = 2 ^ (k + 1) := hpow

theorem floatRound_mono {a b : ℚ} (ha : 0 ≤ a) (h : a ≤ b) :
    floatRound a ≤ floatRound b := by
  rcases eq_or_lt_of_le ha with h0 | h0
  · rw [← h0, floatRound_zero]
    exact floatRound_nonneg (le_trans ha h)
  · have hb : 0 < b := lt_of_lt_of_le h0 h
    have hlog : qlog a ≤ qlog b := qlog_mono h0 h
    rcases eq_or_lt_of_le hlog with heq | hlt
    · unfold floatRound
      rw [if_neg (by positivity), if_pos h0, if_neg (by positivity), if_pos hb, ← heq]
      have hu : (0 : ℚ) < 2 ^ (qlog a - 52) := by positivity
      apply mul_le_mul_of_nonneg_right _ (le_of_lt hu)
      have hdiv : a / 2 ^ (qlog a - 52) ≤ b / 2 ^ (qlog a - 52) :=
        (div_le_div_iff_of_pos_right hu).mpr h
      exact_mod_cast roundHalfEven_mono hdiv
    · calc floatRound a ≤ (2 : ℚ) ^ (qlog a + 1) := floatRound_le_pow_succ h0
        _ ≤ (2 : ℚ) ^ (qlog b) := by
            apply zpow_le_zpow_right₀ (by norm_num) (by omega)
        _ ≤ floatRound b := floatRound_pos_ge hb

/-! ## Claim C1 : classification precedence -/

/-- C1: determine_type evaluates the tag keys in the fixed precedence
order shop, office, amenity, tourism, historic, leisure, craft (it agrees
everywhere with the first-match rule-list evaluator built from the spec
wording), returns (other, unknown) when no recognized tag is present,
and in particular a bag holding both a string shop value and an amenity
value classifies as retail with the shop value as subtype. -/
theorem determine_type_precedence :
    (∀ row : Row, determine_type row = classifyByPrecedenceSpec row) ∧
    (∀ (row : Row) (s a : String),
      determine_type { row with shop := some s, amenity := some a } = some ("retail", s)) ∧
    determine_type ⟨none, none, none, none, none, none, none⟩ = some ("other", "unknown") := by
  refine ⟨?_, ?_, rfl⟩
  · intro row
    rcases row with ⟨s, o, a, t, h, l, c⟩
    cases s <;> cases o <;> cases a <;> cases t <;> cases h <;> cases l <;> cases c <;> rfl
  · intro row s a
    rfl

/-! ## Claim C2 : blacklist scope -/

/-- C2 counterexample: a bag holding a string shop value and the
blacklisted amenity value bench is classified retail, not discarded, so
a blacklisted raw value does not discard the feature regardless of the
other tags present. -/
theorem blacklist_not_global_cex :
    determine_type ⟨some "bakery", none, some "bench", none, none, none, none⟩ =
      some ("retail", "bakery") ∧
    "bench" ∈ BLACKLIST ∧
    determine_type ⟨some "bakery", none, some "bench", none, none, none, none⟩ ≠ none := by
  exact ⟨rfl, by decide, by decide⟩

/-- C2 amended: the blacklist is consulted only at the amenity and
leisure steps of the precedence chain; a blacklisted amenity value
discards the feature provided no shop or office string tag precedes it,
and a blacklisted leisure value discards provided none of shop, office,
amenity, tourism, historic carries a string value. -/
theorem blacklist_amenity_leisure :
    (∀ (row : Row) (v : String), v ∈ BLACKLIST →
      determine_type ⟨none, none, some v, row.tourism, row.historic, row.leisure, row.craft⟩ =
        none) ∧
    (∀ (row : Row) (v : String), v ∈ BLACKLIST →
      determine_type ⟨none, none, none, none, none, some v, row.craft⟩ = none) := by
  constructor <;> intro row v hv <;> simp [determine_type, hv]

/-- Witness for C2 amended at amenity bench and leisure bench. -/
theorem blacklist_amenity_leisure_w :
    determine_type ⟨none, none, some "bench", none, none, none, none⟩ = none ∧
    determine_type ⟨none, none, none, none, none, some "bench", none⟩ = none :=
  ⟨blacklist_amenity_leisure.1 ⟨none, none, none, none, none, none, none⟩ "bench" (by decide),
   blacklist_amenity_leisure.2 ⟨none, none, none, none, none, none, none⟩ "bench" (by decide)⟩

/-! ## Claim C9 : placeholder name -/

/-- C9 counterexample: a nameless feature with subtype cafe gets the
placeholder "Unnamed cafe", not the spec string "unnamed-cafe". -/
theorem poi_placeholder_cex :
    (mkPOI "hospitality" "cafe" none 0 0 (some 1) none).name = "Unnamed cafe" ∧
    "Unnamed cafe" ≠ "unnamed-cafe" :=
  ⟨rfl, by decide⟩

/-- C9 amended: a feature without a string name gets the placeholder
"Unnamed <subtype>" (capitalized, space-separated) built from its
subtype, and a feature with a string name keeps it unchanged. -/
theorem poi_placeholder_name :
    (∀ (t st : String) (lon lat : ℚ) (oid : Option ℤ) (oh : Option String),
      (mkPOI t st none lon lat oid oh).name = "Unnamed " ++ st) ∧
    (∀ (t st n : String) (lon lat : ℚ) (oid : Option ℤ) (oh : Option String),
      (mkPOI t st (some n) lon lat oid oh).name = n) :=
  ⟨fun _ _ _ _ _ _ => rfl, fun _ _ _ _ _ _ _ => rfl⟩

/-! ## Batched-sink lemmas -/

theorem chunksAux_flatten {α : Type*} {n : ℕ} (hn : 0 < n) :
    ∀ (fuel : ℕ) (l : List α), l.length ≤ fuel → (chunksAux n fuel l).flatten = l := by
  intro fuel
  induction fuel with
  | zero =>
    intro l h
    cases l with
    | nil => rfl
    | cons a t => simp at h
  | succ g ih =>
    intro l h
    cases l with
    | nil => rfl
    | cons a t =>
      simp only [chunksAux, List.flatten_cons]
      rw [ih _ (by simp only [List.length_drop, List.length_cons] at *; omega)]
      exact List.take_append_drop n (a :: t)

/-- Joining the submitted chunks gives back the record list. -/
theorem chunksOf_flatten {α : Type*} {n : ℕ} (hn : 0 < n) (l : List α) :
    (chunksOf n l).flatten = l :=
  chunksAux_flatten hn l.length l le_rfl

/-- Chunk sizes add up to the total record count. -/
theorem chunksOf_sum_length {α : Type*} {n : ℕ} (hn : 0 < n) (l : List α) :
    ((chunksOf n l).map List.length).sum = l.length := by
  rw [← List.length_flatten, chunksOf_flatten hn]

theorem glaGo_calls {α : Type*} (fails : ℕ → Bool) :
    ∀ (i : ℕ) (bs : List (List α)), (glaGo fails i bs).1 = bs := by
  intro i bs
  induction bs generalizing i with
  | nil => rfl
  | cons b t ih => simp [glaGo, ih]

theorem glaGo_inserted {α : Type*} (fails : ℕ → Bool) :
    ∀ (i : ℕ) (bs : List (List α)),
      (glaGo fails i bs).2 + failedSize fails i bs = (bs.map List.length).sum := by
  intro i bs
  induction bs generalizing i with
  | nil => rfl
  | cons b t ih =>
    simp only [glaGo, failedSize, List.map_cons, List.sum_cons]
    have h := ih (i + 1)
    by_cases hf : fails i <;> simp [hf] <;> omega

theorem osmGo_calls (fails : ℕ → Bool) :
    ∀ (i : ℕ) (bs : List (List POI)),
      (osmGo fails i bs).1 =
        (bs.map (fun b => b.filter osmIdTruthy)).filter (fun b => !b.isEmpty) := by
  intro i bs
  induction bs generalizing i with
  | nil => rfl
  | cons b t ih =>
    simp only [osmGo, List.map_cons, List.filter_cons]
    by_cases he : (b.filter osmIdTruthy).isEmpty <;>
      by_cases hf : fails i <;>
        simp [he, hf, ih (i + 1)]

theorem osmGo_inserted (fails : ℕ → Bool) :
    ∀ (i : ℕ) (bs : List (List POI)),
      (osmGo fails i bs).2.1 = osmValidOutsideFailed fails i bs := by
  intro i bs
  induction bs generalizing i with
  | nil => rfl
  | cons b t ih =>
    simp only [osmGo, osmValidOutsideFailed]
    by_cases he : (b.filter osmIdTruthy).isEmpty
    · have hlen : (b.filter osmIdTruthy).length = 0 := by
        simpa [List.isEmpty_iff_length_eq_zero] using he
      by_cases hf : fails i <;> simp [he, hf, ih (i + 1), hlen]
    · by_cases hf : fails i <;> simp [he, hf, ih (i + 1)] <;> omega

theorem osmGo_errors (fails : ℕ → Bool) :
    ∀ (i : ℕ) (bs : List (List POI)),
      (osmGo fails i bs).2.2 = osmFailedAttempted fails i bs := by
  intro i bs
  induction bs generalizing i with
  | nil => rfl
  | cons b t ih =>
    simp only [osmGo, osmFailedAttempted]
    by_cases he : (b.filter osmIdTruthy).isEmpty <;>
      by_cases hf : fails i <;>
        simp [he, hf, ih (i + 1)] <;> omega

theorem osmValid_split (fails : ℕ → Bool) :
    ∀ (i : ℕ) (bs : List (List POI)),
      osmValidOutsideFailed fails i bs + osmValidInFailed fails i bs =
        (bs.map (fun b => (b.filter osmIdTruthy).length)).sum := by
  intro i bs
  induction bs generalizing i with
  | nil => rfl
  | cons b t ih =>
    simp only [osmValidOutsideFailed, osmValidInFailed, List.map_cons, List.sum_cons]
    have h := ih (i + 1)
    by_cases hf : fails i <;> simp [hf] <;> omega

/-- Valid records summed over the chunks equal the valid records of the
whole submission. -/
theorem chunksOf_sum_valid {n : ℕ} (hn : 0 < n) (pois : List POI) :
    ((chunksOf n pois).map (fun b => (b.filter osmIdTruthy).length)).sum =
      (pois.filter osmIdTruthy).length := by
  have h : pois.filter osmIdTruthy =
      ((chunksOf n pois).map (List.filter osmIdTruthy)).flatten := by
    rw [← List.filter_flatten, chunksOf_flatten hn]
  rw [h, List.length_flatten, List.map_map]
  rfl

/-- C7 counterexample: with no chunk failing at all, the OSM sink reports
1 inserted for a 2-record submission, so the inserted count does not
exclude exactly the records of failed chunks (it also excludes records
without a usable osm id in successful chunks). -/
theorem insert_count_cex :
    (insert_pois_to_supabase (fun _ => false) cexPois).2.1 = 1 ∧
    cexPois.length = 2 ∧
    failedSize (fun _ => false) 0 (chunksOf 100 cexPois) = 0 ∧
    (1 : ℕ) ≠ 2 - 0 := by
  exact ⟨by decide, by decide, by decide, by decide⟩

/-- C7 amended: both sinks attempt every chunk and a chunk's failure
affects no other chunk.  The GLA sink submits every chunk as is and its
inserted count is the total record count minus the records of failed
chunks (it reports no error count).  The OSM sink submits, for every
chunk with at least one id-valid record, exactly the id-valid part; its
inserted count is the number of id-valid records outside failed chunks,
and its error count is the full size of the failed chunks that were
attempted. -/
theorem batch_failure_isolation :
    (∀ (fails : ℕ → Bool) (records : List FootfallRecord),
      (insert_footfall_data fails records).1 = chunksOf 100 records ∧
      (insert_footfall_data fails records).2 +
        failedSize fails 0 (chunksOf 100 records) = records.length) ∧
    (∀ (fails : ℕ → Bool) (pois : List POI),
      (insert_pois_to_supabase fails pois).1 =
        ((chunksOf 100 pois).map (fun b => b.filter osmIdTruthy)).filter
          (fun b => !b.isEmpty) ∧
      (insert_pois_to_supabase fails pois).2.1 +
        osmValidInFailed fails 0 (chunksOf 100 pois) =
          (pois.filter osmIdTruthy).length ∧
      (insert_pois_to_supabase fails pois).2.2 =
        osmFailedAttempted fails 0 (chunksOf 100 pois)) := by
  constructor
  · intro fails records
    refine ⟨glaGo_calls fails 0 _, ?_⟩
    rw [insert_footfall_data, glaGo_inserted fails 0 _,
      chunksOf_sum_length (by norm_num) records]
  · intro fails pois
    refine ⟨osmGo_calls fails 0 _, ?_, osmGo_errors fails 0 _⟩
    rw [insert_pois_to_supabase, osmGo_inserted fails 0 _, osmValid_split fails 0 _,
      chunksOf_sum_valid (by norm_num) pois]

/-- C8 counterexample: the id-less record is dropped inside its batch,
after chunking, so the submitted batches have sizes 99 and 1; had the
exclusion happened before batching, a single batch of size 100 would have
been submitted.  The claimed pre-batching exclusion is therefore false of
the code. -/
theorem exclusion_after_batching_cex :
    ((insert_pois_to_supabase (fun _ => false) cexPoisB).1).map List.length = [99, 1] ∧
    (chunksOf 100 (cexPoisB.filter osmIdTruthy)).map List.length = [100] ∧
    (insert_pois_to_supabase (fun _ => false) cexPoisB).1 ≠
      chunksOf 100 (cexPoisB.filter osmIdTruthy) := by
  refine ⟨by decide, by decide, fun h => ?_⟩
  have h1 : ((insert_pois_to_supabase (fun _ => false) cexPoisB).1).map List.length =
      [99, 1] := by decide
  rw [h] at h1
  have h2 : (chunksOf 100 (cexPoisB.filter osmIdTruthy)).map List.length = [100] := by
    decide
  rw [h2] at h1
  exact absurd h1 (by decide)

/-- C8 amended: a POIRecord lacking a usable osm id is excluded from its
chunk before that chunk's upsert call (the exclusion happens per chunk,
after batching) and is never submitted to the store in any upsert call:
every submitted payload consists of id-valid records only. -/
theorem invalid_id_never_submitted :
    ∀ (fails : ℕ → Bool) (pois : List POI),
      (∀ b ∈ (insert_pois_to_supabase fails pois).1, ∀ p ∈ b, osmIdTruthy p = true) ∧
      (insert_pois_to_supabase fails pois).1 =
        ((chunksOf 100 pois).map (fun b => b.filter osmIdTruthy)).filter
          (fun b => !b.isEmpty) := by
  intro fails pois
  have hc := osmGo_calls fails 0 (chunksOf 100 pois)
  refine ⟨?_, hc⟩
  intro b hb p hp
  rw [insert_pois_to_supabase, hc] at hb
  rcases List.mem_filter.mp hb with ⟨hb1, _⟩
  rcases List.mem_map.mp hb1 with ⟨c, _, rfl⟩
  exact (List.mem_filter.mp hp).2

/-- Witness for C8 amended: a one-record id-valid submission is upserted
and its record passes the id check. -/
theorem invalid_id_never_submitted_w :
    osmIdTruthy (mkPOI "retail" "bakery" (some "A") 0 0 (some 1) none) = true :=
  (invalid_id_never_submitted (fun _ => false)
      [mkPOI "retail" "bakery" (some "A") 0 0 (some 1) none]).1
    [mkPOI "retail" "bakery" (some "A") 0 0 (some 1) none] (by decide)
    (mkPOI "retail" "bakery" (some "A") 0 0 (some 1) none) (by decide)

/-! ## Estimator lemmas -/

theorem estimatedScore_bounds (n d : String) (h : ℕ) :
    0 ≤ estimatedScore n d h ∧ estimatedScore n d h ≤ 100 :=
  ⟨le_max_left 0 _, max_le (by norm_num) (min_le_left _ _)⟩

theorem sampleScore_bounds (s : ℕ) (m : ℚ) :
    0 ≤ sampleScore s m ∧ sampleScore s m ≤ 100 := by
  constructor
  · exact Int.floor_nonneg.mpr (le_min (by norm_num) (le_max_left 0 _))
  · calc ⌊min 100 (max 0 (floatRound ((s : ℚ) * floatRound m)))⌋ ≤ ⌊(100 : ℚ)⌋ :=
        Int.floor_le_floor (min_le_left _ _)
      _ = 100 := by norm_num

/-! ## Claim C4 : score range invariant -/

/-- C4 counterexample: the authoritative popular-times parse copies the
fetched popularity into avg_footfall_score without clamping, so a fetched
value of 150 produces a record whose score violates 0..100. -/
theorem parse_score_unclamped_cex :
    (parsePopularTimesRecords "X" 0 0 [⟨0, [150]⟩]).map
      (fun r => r.avg_footfall_score) = [150] ∧
    ¬((150 : ℤ) ≤ 100) :=
  ⟨rfl, by decide⟩

/-- C4 amended: every record of the synthetic estimator and of the sample
generator has an integer avg_footfall_score in 0..100; a record of the
authoritative popular-times parse carries the fetched popularity
unmodified, so its score lies in 0..100 only under the assumption that
every fetched popularity value does. -/
theorem footfall_score_bounds :
    (∀ (name : String) (lat lng : ℚ) (r : FootfallRecord),
      r ∈ generate_estimated_popular_times name lat lng →
        0 ≤ r.avg_footfall_score ∧ r.avg_footfall_score ≤ 100) ∧
    (∀ r ∈ generate_sample_data,
        0 ≤ r.avg_footfall_score ∧ r.avg_footfall_score ≤ 100) ∧
    (∀ (name : String) (lat lng : ℚ) (pts : List DayData),
      (∀ dd ∈ pts, ∀ p ∈ dd.data, 0 ≤ p ∧ p ≤ 100) →
      ∀ r ∈ parsePopularTimesRecords name lat lng pts,
        0 ≤ r.avg_footfall_score ∧ r.avg_footfall_score ≤ 100) := by
  refine ⟨?_, ?_, ?_⟩
  · intro name lat lng r hr
    simp only [generate_estimated_popular_times, List.mem_flatMap, List.mem_map,
      List.mem_range] at hr
    obtain ⟨day, _, hour, _, rfl⟩ := hr
    exact estimatedScore_bounds name day hour
  · intro r hr
    simp only [generate_sample_data, List.mem_flatMap, List.mem_map] at hr
    obtain ⟨loc, _, day, _, p, _, rfl⟩ := hr
    exact sampleScore_bounds p.2 (locationMultiplier loc.1)
  · intro name lat lng pts hpts r hr
    simp only [parsePopularTimesRecords, List.mem_flatMap, List.mem_map] at hr
    obtain ⟨dd, hdd, p, hp, rfl⟩ := hr
    have hsnd : p.2 ∈ dd.data := by
      have h2 := List.mem_map_of_mem Prod.snd hp
      rwa [List.enum_map_snd] at h2
    exact hpts dd hdd p.2 hsnd

/-- Witness for C4 amended: one concrete record from each of the three
producers satisfies the bounds. -/
theorem footfall_score_bounds_w :
    (0 ≤ (mkEstRecord "A" 0 0 "Monday" 0).avg_footfall_score ∧
      (mkEstRecord "A" 0 0 "Monday" 0).avg_footfall_score ≤ 100) ∧
    (0 ≤ (⟨"Oxford Street", (-1410/10000, 515153/10000), "Monday", 0, 5, 500,
        "SAMPLE_DATA", "2024-01-01"⟩ : FootfallRecord).avg_footfall_score ∧
      (⟨"Oxford Street", (-1410/10000, 515153/10000), "Monday", 0, 5, 500,
        "SAMPLE_DATA", "2024-01-01"⟩ : FootfallRecord).avg_footfall_score ≤ 100) ∧
    (0 ≤ (⟨"X", (0, 0), "Monday", 0, 50, 5000,
        "GOOGLE_POPULAR_TIMES", "2024-01-01"⟩ : FootfallRecord).avg_footfall_score ∧
      (⟨"X", (0, 0), "Monday", 0, 50, 5000,
        "GOOGLE_POPULAR_TIMES", "2024-01-01"⟩ : FootfallRecord).avg_footfall_score ≤ 100) :=
  ⟨footfall_score_bounds.1 "A" 0 0 _
      (List.mem_flatMap.mpr ⟨"Monday", by decide,
        List.mem_map.mpr ⟨0, by decide, rfl⟩⟩),
   footfall_score_bounds.2.1 _ (by decide),
   footfall_score_bounds.2.2 "X" 0 0 [⟨0, [50]⟩] (by decide) _ (by decide)⟩

/-! ## Claim C5 : spec scenario values -/

/-- C5: a location whose lowercased name matches no archetype keyword
scores 85 at hour 13 on a non-weekend day, and a station-archetype
location scores 38 at hour 8 on Saturday (base 50, weekend station
scaling by 0.7 to 35, Saturday scaling by 1.1 to 38, truncating at each
step exactly as CPython double arithmetic does). -/
theorem estimator_scenarios :
    (∀ (name day : String),
      strContainsSub (strToLower name) "station" = false →
      (strContainsSub (strToLower name) "circus" || strContainsSub (strToLower name) "square" ||
        strContainsSub (strToLower name) "street" || strContainsSub (strToLower name) "garden") = false →
      (strContainsSub (strToLower name) "cathedral" || strContainsSub (strToLower name) "abbey" ||
        strContainsSub (strToLower name) "eye" || strContainsSub (strToLower name) "bridge" ||
        strContainsSub (strToLower name) "ben") = false →
      (day == "Saturday" || day == "Sunday") = false →
      estimatedScore name day 13 = 85) ∧
    (∀ name : String, strContainsSub (strToLower name) "station" = true →
      estimatedScore name "Saturday" 8 = 38) := by
  constructor
  · intro name day hst hsh hlm hwk
    simp only [Bool.or_eq_false_iff] at hsh hlm hwk
    obtain ⟨⟨⟨hc1, hc2⟩, hc3⟩, hc4⟩ := hsh
    obtain ⟨⟨⟨⟨hl1, hl2⟩, hl3⟩, hl4⟩, hl5⟩ := hlm
    obtain ⟨hw1, hw2⟩ := hwk
    simp [estimatedScore, hst, hc1, hc2, hc3, hc4, hl1, hl2, hl3, hl4, hl5, hw1, hw2,
      baseCurve]
  · intro name hst
    simp [estimatedScore, hst]
    decide

/-- Witness for C5 at Whitehall (no archetype) and Victoria Station. -/
theorem estimator_scenarios_w :
    estimatedScore "Whitehall" "Wednesday" 13 = 85 ∧
    estimatedScore "Victoria Station" "Saturday" 8 = 38 :=
  ⟨estimator_scenarios.1 "Whitehall" "Wednesday" (by decide) (by decide) (by decide)
      (by decide),
   estimator_scenarios.2 "Victoria Station" (by decide)⟩

/-! ## Claim C6 : estimator determinism -/

/-- C6: the estimator is a pure function of its inputs; two calls with
equal place name, latitude and longitude return identical 7-day by
24-hour record lists. -/
theorem estimator_deterministic :
    ∀ (n1 n2 : String) (lat1 lat2 lng1 lng2 : ℚ),
      n1 = n2 → lat1 = lat2 → lng1 = lng2 →
      generate_estimated_popular_times n1 lat1 lng1 =
        generate_estimated_popular_times n2 lat2 lng2 := by
  intro n1 n2 lat1 lat2 lng1 lng2 h1 h2 h3
  rw [h1, h2, h3]

/-- Witness for C6 at the Victoria Station coordinates. -/
theorem estimator_deterministic_w :
    generate_estimated_popular_times "Victoria Station" (514952/10000) (-1439/10000) =
      generate_estimated_popular_times "Victoria Station" (514952/10000) (-1439/10000) :=
  estimator_deterministic "Victoria Station" "Victoria Station"
    (514952/10000) (514952/10000) (-1439/10000) (-1439/10000) rfl rfl rfl

/-! ## Claim C10 : raw value is 100 times the score -/

/-- C10: every record of the synthetic estimator and of the sample-data
generator has raw_footfall_value equal to exactly 100 times
avg_footfall_score; the raw value is derived from the normalized score,
not an independent magnitude. -/
theorem raw_is_hundred_times_score :
    (∀ (name : String) (lat lng : ℚ) (r : FootfallRecord),
      r ∈ generate_estimated_popular_times name lat lng →
        r.raw_footfall_value = 100 * r.avg_footfall_score) ∧
    (∀ r ∈ generate_sample_data,
        r.raw_footfall_value = 100 * r.avg_footfall_score) := by
  constructor
  · intro name lat lng r hr
    simp only [generate_estimated_popular_times, List.mem_flatMap, List.mem_map,
      List.mem_range] at hr
    obtain ⟨day, _, hour, _, rfl⟩ := hr
    show estimatedScore name day hour * 100 = 100 * estimatedScore name day hour
    ring
  · intro r hr
    simp only [generate_sample_data, List.mem_flatMap, List.mem_map] at hr
    obtain ⟨loc, _, day, _, p, _, rfl⟩ := hr
    show sampleScore p.2 (locationMultiplier loc.1) * 100 =
      100 * sampleScore p.2 (locationMultiplier loc.1)
    ring

/-- Witness for C10: one concrete estimator record and one concrete
sample record. -/
theorem raw_is_hundred_times_score_w :
    (mkEstRecord "A" 0 0 "Monday" 0).raw_footfall_value =
      100 * (mkEstRecord "A" 0 0 "Monday" 0).avg_footfall_score ∧
    (⟨"Oxford Street", (-1410/10000, 515153/10000), "Monday", 0, 5, 500,
        "SAMPLE_DATA", "2024-01-01"⟩ : FootfallRecord).raw_footfall_value =
      100 * (⟨"Oxford Street", (-1410/10000, 515153/10000), "Monday", 0, 5, 500,
        "SAMPLE_DATA", "2024-01-01"⟩ : FootfallRecord).avg_footfall_score :=
  ⟨raw_is_hundred_times_score.1 "A" 0 0 _
      (List.mem_flatMap.mpr ⟨"Monday", by decide,
        List.mem_map.mpr ⟨0, by decide, rfl⟩⟩),
   raw_is_hundred_times_score.2 _ (by decide)⟩

/-! ## Normalizer lemmas -/

theorem seriesMin_le : ∀ (vs : List ℚ) (v x : ℚ), x ∈ v :: vs → seriesMin v vs ≤ x := by
  intro vs
  induction vs with
  | nil =>
    intro v x hx
    rcases List.mem_singleton.mp hx with rfl
    exact le_rfl
  | cons b bs ih =>
    intro v x hx
    rcases List.mem_cons.mp hx with heq | hx2
    · rw [heq]
      exact le_trans (ih (min v b) (min v b) (List.mem_cons_self _ _)) (min_le_left v b)
    · rcases List.mem_cons.mp hx2 with heq | hx3
      · rw [heq]
        exact le_trans (ih (min v b) (min v b) (List.mem_cons_self _ _)) (min_le_right v b)
      · exact ih (min v b) x (List.mem_cons_of_mem _ hx3)

theorem le_seriesMax : ∀ (vs : List ℚ) (v x : ℚ), x ∈ v :: vs → x ≤ seriesMax v vs := by
  intro vs
  induction vs with
  | nil =>
    intro v x hx
    rcases List.mem_singleton.mp hx with rfl
    exact le_rfl
  | cons b bs ih =>
    intro v x hx
    rcases List.mem_cons.mp hx with heq | hx2
    · rw [heq]
      exact le_trans (le_max_left v b) (ih (max v b) (max v b) (List.mem_cons_self _ _))
    · rcases List.mem_cons.mp hx2 with heq | hx3
      · rw [heq]
        exact le_trans (le_max_right v b) (ih (max v b) (max v b) (List.mem_cons_self _ _))
      · exact ih (max v b) x (List.mem_cons_of_mem _ hx3)

theorem seriesMin_mem : ∀ (vs : List ℚ) (v : ℚ), seriesMin v vs ∈ v :: vs := by
  intro vs
  induction vs with
  | nil => intro v; exact List.mem_cons_self v []
  | cons b bs ih =>
    intro v
    have h := ih (min v b)
    rcases List.mem_cons.mp h with heq | hmem
    · show seriesMin (min v b) bs ∈ v :: b :: bs
      rw [heq]
      rcases min_choice v b with h2 | h2
      · rw [h2]; exact List.mem_cons_self _ _
      · rw [h2]; exact List.mem_cons_of_mem _ (List.mem_cons_self _ _)
    · exact List.mem_cons_of_mem _ (List.mem_cons_of_mem _ hmem)

theorem seriesMax_mem : ∀ (vs : List ℚ) (v : ℚ), seriesMax v vs ∈ v :: vs := by
  intro vs
  induction vs with
  | nil => intro v; exact List.mem_cons_self v []
  | cons b bs ih =>
    intro v
    have h := ih (max v b)
    rcases List.mem_cons.mp h with heq | hmem
    · show seriesMax (max v b) bs ∈ v :: b :: bs
      rw [heq]
      rcases max_choice v b with h2 | h2
      · rw [h2]; exact List.mem_cons_self _ _
      · rw [h2]; exact List.mem_cons_of_mem _ (List.mem_cons_self _ _)
    · exact List.mem_cons_of_mem _ (List.mem_cons_of_mem _ hmem)

theorem roundHalfEven_zero : roundHalfEven 0 = 0 := by decide

theorem roundHalfEven_hundred : roundHalfEven 100 = 100 := by decide

theorem floatRound_one : floatRound 1 = 1 := by decide

theorem floatRound_hundred : floatRound 100 = 100 := by decide

theorem normElem_min (mn mx : ℚ) (h : mn < mx) : normElem mn mx mn = 0 := by
  unfold normElem
  rw [sub_self, floatRound_zero, zero_div, floatRound_zero, zero_mul, floatRound_zero]
  exact roundHalfEven_zero

theorem normElem_max (mn mx : ℚ) (h : mn < mx) : normElem mn mx mx = 100 := by
  unfold normElem
  have hd : floatRound (mx - mn) ≠ 0 := ne_of_gt (floatRound_pos (by linarith))
  rw [div_self hd, floatRound_one, one_mul, floatRound_hundred]
  exact roundHalfEven_hundred

theorem normElem_bounds {mn mx x : ℚ} (h : mn < mx) (h1 : mn ≤ x) (h2 : x ≤ mx) :
    0 ≤ normElem mn mx x ∧ normElem mn mx x ≤ 100 := by
  unfold normElem
  have hn0 : 0 ≤ floatRound (x - mn) := floatRound_nonneg (by linarith)
  have hd0 : 0 < floatRound (mx - mn) := floatRound_pos (by linarith)
  have hnd : floatRound (x - mn) ≤ floatRound (mx - mn) :=
    floatRound_mono (by linarith) (by linarith)
  have ht0 : 0 ≤ floatRound (x - mn) / floatRound (mx - mn) :=
    div_nonneg hn0 (le_of_lt hd0)
  have ht : floatRound (x - mn) / floatRound (mx - mn) ≤ 1 := (div_le_one hd0).mpr hnd
  have hr0 : 0 ≤ floatRound (floatRound (x - mn) / floatRound (mx - mn)) :=
    floatRound_nonneg ht0
  have hr : floatRound (floatRound (x - mn) / floatRound (mx - mn)) ≤ 1 := by
    calc floatRound (floatRound (x - mn) / floatRound (mx - mn)) ≤ floatRound 1 :=
        floatRound_mono ht0 ht
      _ = 1 := floatRound_one
  have hs0 : 0 ≤ floatRound (floatRound (x - mn) / floatRound (mx - mn)) * 100 := by
    positivity
  have hs : floatRound (floatRound (x - mn) / floatRound (mx - mn)) * 100 ≤ 100 := by
    nlinarith
  have hp0 : 0 ≤ floatRound (floatRound (floatRound (x - mn) / floatRound (mx - mn)) * 100) :=
    floatRound_nonneg hs0
  have hp : floatRound (floatRound (floatRound (x - mn) / floatRound (mx - mn)) * 100) ≤ 100 := by
    calc floatRound (floatRound (floatRound (x - mn) / floatRound (mx - mn)) * 100)
        ≤ floatRound 100 := floatRound_mono hs0 hs
      _ = 100 := floatRound_hundred
  constructor
  · exact roundHalfEven_nonneg hp0
  · exact roundHalfEven_le_int (by exact_mod_cast hp)

/-! ## Claim C3 : score normalization -/

/-- C3: on a non-empty series the normalizer returns integers in 0..100;
when all inputs are equal every output is exactly 50; otherwise the
output is the pointwise rounding (half to even, as pandas .round does,
over exactly-modelled double arithmetic) of the linear rescale, which
sends the minimum to 0 and the maximum to 100. -/
theorem normalize_to_100_claim :
    (∀ (v : ℚ) (vs : List ℚ) (y : ℤ),
      y ∈ normalize_to_100 (v :: vs) → 0 ≤ y ∧ y ≤ 100) ∧
    (∀ (v : ℚ) (vs : List ℚ), (∀ x ∈ v :: vs, x = v) →
      normalize_to_100 (v :: vs) = List.replicate (v :: vs).length 50) ∧
    (∀ (v : ℚ) (vs : List ℚ), seriesMin v vs ≠ seriesMax v vs →
      normalize_to_100 (v :: vs) =
        (v :: vs).map (normElem (seriesMin v vs) (seriesMax v vs)) ∧
      normElem (seriesMin v vs) (seriesMax v vs) (seriesMin v vs) = 0 ∧
      normElem (seriesMin v vs) (seriesMax v vs) (seriesMax v vs) = 100) := by
  have hminmax : ∀ (v : ℚ) (vs : List ℚ), seriesMin v vs ≤ seriesMax v vs := by
    intro v vs
    exact le_trans (seriesMin_le vs v v (List.mem_cons_self _ _))
      (le_seriesMax vs v v (List.mem_cons_self _ _))
  refine ⟨?_, ?_, ?_⟩
  · intro v vs y hy
    by_cases hm : seriesMax v vs = seriesMin v vs
    · simp only [normalize_to_100, if_pos hm] at hy
      rcases List.eq_of_mem_replicate hy with rfl
      norm_num
    · simp only [normalize_to_100, if_neg hm] at hy
      rcases List.mem_map.mp hy with ⟨x, hx, rfl⟩
      have hlt : seriesMin v vs < seriesMax v vs :=
        lt_of_le_of_ne (hminmax v vs) (fun he => hm he.symm)
      exact normElem_bounds hlt (seriesMin_le vs v x hx) (le_seriesMax vs v x hx)
  · intro v vs hall
    have hmin : seriesMin v vs = v := hall _ (seriesMin_mem vs v)
    have hmax : seriesMax v vs = v := hall _ (seriesMax_mem vs v)
    simp only [normalize_to_100]
    rw [if_pos (by rw [hmin, hmax])]
  · intro v vs hne
    have hlt : seriesMin v vs < seriesMax v vs := lt_of_le_of_ne (hminmax v vs) hne
    refine ⟨?_, normElem_min _ _ hlt, normElem_max _ _ hlt⟩
    simp only [normalize_to_100]
    rw [if_neg (fun he => hne he.symm)]

/-- Witness for C3 on the series [0, 1] and the constant series [2, 2]. -/
theorem normalize_to_100_claim_w :
    (0 ≤ (0 : ℤ) ∧ (0 : ℤ) ≤ 100) ∧
    normalize_to_100 [(2 : ℚ), 2] = List.replicate 2 50 ∧
    (normalize_to_100 [(0 : ℚ), 1] =
        [(0 : ℚ), 1].map (normElem (seriesMin 0 [1]) (seriesMax 0 [1])) ∧
      normElem (seriesMin 0 [1]) (seriesMax 0 [1]) (seriesMin 0 [1]) = 0 ∧
      normElem (seriesMin 0 [1]) (seriesMax 0 [1]) (seriesMax 0 [1]) = 100) :=
  ⟨normalize_to_100_claim.1 0 [1] 0 (by decide),
   normalize_to_100_claim.2.1 2 [2] (by decide),
   normalize_to_100_claim.2.2 0 [1] (by decide)⟩

end Mcbmap
